import Mathlib

/-!
Verification of the `WeatherDataGraphs` React component
(`src/WeatherDataGraphs.jsx`) against its natural-language specification.

The component is embedded shallowly:

* JavaScript runtime values that flow through the formatter are modelled by
  the inductive type `JSVal` (with `undefined`/`null`/`nan` distinguished, since
  the code's truthiness guards and `Array.isArray` checks branch on them).
* `new Date(v)` together with the four local-time getters
  `getMonth/getDate/getHours/getMinutes` is timezone-dependent, so it is a
  parameter `DateEnv` of the embedding; `none` models a `NaN` getter result
  (what JavaScript returns on an Invalid Date).
* The pure helpers `formatTimestamp`, `formatTimestamps` and `formatData`
  are translated directly.  Member access and index access on `null` /
  `undefined` are the only operations in this code that can throw in
  JavaScript, so a fallible variant of the formatter (`formatDataE`, in
  `Except`) models exceptions, and totality theorems show the real code
  never throws.
* React component state is the record `CState`; the click handlers of the
  three quick-filter buttons and the chart `animation.onComplete` callback
  become state-transition functions; the JSX render becomes a pure `render`
  function producing a `View`.  Host callback invocations
  (`props.filterChange`) are returned as an event list.
-/

set_option autoImplicit false

namespace WeatherGraphs

/-- JavaScript values, as far as this component inspects them.  `num` carries
an integer (all numeric literals in the component and its expected inputs are
integral); `nan` is the separate NaN value produced by failed conversions. -/
inductive JSVal where
  | undefined
  | null
  | bool (b : Bool)
  | num (n : Int)
  | nan
  | str (s : String)
  | arr (elems : List JSVal)
  | obj (fields : List (String × JSVal))

/-- JavaScript truthiness: `false`, `0`, `NaN`, `""`, `null`, `undefined`
are falsy, everything else (including every array and object) is truthy. -/
def truthy : JSVal → Bool
  | .undefined => false
  | .null => false
  | .bool b => b
  | .num n => n != 0
  | .nan => false
  | .str s => s != ""
  | .arr _ => true
  | .obj _ => true

/-- `Array.isArray`. -/
def isArray : JSVal → Bool
  | .arr _ => true
  | _ => false

/-- `true` exactly on `null` and `undefined` (the values an array join
renders as the empty string, and the only ones member access throws on). -/
def isNullOrUndefined : JSVal → Bool
  | .undefined => true
  | .null => true
  | _ => false

mutual

/-- String conversion as performed by a template literal, for the values this
component can feed one (`\x7b...\x7d4D` on a color spec).  Arrays join their
elements with commas (with `null`/`undefined` elements rendering empty);
plain objects render as `[object Object]`. -/
def jsToStr : JSVal → String
  | .undefined => "undefined"
  | .null => "null"
  | .bool b => cond b "true" "false"
  | .num n => toString n
  | .nan => "NaN"
  | .str s => s
  | .obj _ => "[object Object]"
  | .arr xs => jsToStrList xs
termination_by v => sizeOf v

/-- Comma join of array elements for `jsToStr`. -/
def jsToStrList : List JSVal → String
  | [] => ""
  | [v] => cond (isNullOrUndefined v) "" (jsToStr v)
  | v :: rest => cond (isNullOrUndefined v) "" (jsToStr v) ++ "," ++ jsToStrList rest
termination_by l => sizeOf l

end

/-- Member access `v.name`.  Throws (models a `TypeError`) exactly when the
receiver is `null` or `undefined`; on other primitives it yields `undefined`,
on objects the first binding of the field (or `undefined`). -/
def jsMemberE (v : JSVal) (name : String) : Except String JSVal :=
  match v with
  | .undefined => .error "TypeError: cannot read properties of undefined"
  | .null => .error "TypeError: cannot read properties of null"
  | .obj fields => .ok ((fields.lookup name).getD .undefined)
  | _ => .ok .undefined

/-- Index access `v[i]`.  Throws exactly when the receiver is `null` or
`undefined`; arrays yield the element (or `undefined` out of range), strings
yield a one-character string, other primitives yield `undefined`. -/
def jsIndexE (v : JSVal) (i : Nat) : Except String JSVal :=
  match v with
  | .undefined => .error "TypeError: cannot index undefined"
  | .null => .error "TypeError: cannot index null"
  | .arr xs => .ok (xs.getD i .undefined)
  | .str s =>
      .ok (match s.toList.get? i with
           | some c => .str ⟨[c]⟩
           | none => .undefined)
  | .obj fields => .ok ((fields.lookup (toString i)).getD .undefined)
  | _ => .ok .undefined

/-- Total variant of `jsMemberE` (`undefined` where the latter throws). -/
def jsMemberD (v : JSVal) (name : String) : JSVal :=
  ((jsMemberE v name).toOption).getD .undefined

/-- Total variant of `jsIndexE` (`undefined` where the latter throws). -/
def jsIndexD (v : JSVal) (i : Nat) : JSVal :=
  ((jsIndexE v i).toOption).getD .undefined

/-- JavaScript `a || b`. -/
def jsOr (a b : JSVal) : JSVal := if truthy a then a else b

theorem jsMemberE_ok (v : JSVal) (name : String) (h : truthy v = true) :
    jsMemberE v name = .ok (jsMemberD v name) := by
  cases v <;> simp_all [truthy, jsMemberE, jsMemberD, Except.toOption]

theorem jsIndexE_ok (v : JSVal) (i : Nat) (h : truthy v = true) :
    jsIndexE v i = .ok (jsIndexD v i) := by
  cases v <;> simp_all [truthy, jsIndexE, jsIndexD, Except.toOption]

theorem jsIndexE_ok_of_isArray (v : JSVal) (i : Nat) (h : isArray v = true) :
    jsIndexE v i = .ok (jsIndexD v i) := by
  cases v <;> simp_all [isArray, jsIndexE, jsIndexD, Except.toOption]

/-! ### The `Date` model -/

/-- The results of `getMonth`, `getDate`, `getHours`, `getMinutes` on
`new Date(v)`, in the local timezone.  `none` models `NaN` (the getters'
result on an Invalid Date). -/
structure DateParts where
  month : Option Int
  day : Option Int
  hours : Option Int
  minutes : Option Int
deriving Repr, DecidableEq

/-- The timezone- and clock-dependent behaviour of `new Date(v)` followed by
the four local-time getters, abstracted as a parameter of the embedding. -/
def DateEnv := JSVal → DateParts

/-- A `DateEnv` on which every value parses as an Invalid Date: all four
getters return NaN.  This is the JavaScript behaviour of `new Date(s)` for a
non-empty string that does not parse as a date (e.g. `"not-a-date"`). -/
def nanDateEnv : DateEnv := fun _ => ⟨none, none, none, none⟩

/-- A `DateEnv` on which every value has local date parts January 1st,
00:00 (`getMonth = 0`, `getDate = 1`, `getHours = 0`, `getMinutes = 0`),
e.g. a UTC clock reading `"2024-01-01T00:00:00Z"`. -/
def envJan1 : DateEnv := fun _ => ⟨some 0, some 1, some 0, some 0⟩

/-- `String(n)` for a JavaScript number that is either NaN or an integer. -/
def jsNumToString : Option Int → String
  | none => "NaN"
  | some n => toString n

/-- `n + 1` on a JavaScript number (`NaN + 1` is `NaN`). -/
def jsAddOne : Option Int → Option Int
  | none => none
  | some n => some (n + 1)

/-- `s.padStart(2, "0")`. -/
def jsPadStart2 (s : String) : String :=
  if 2 ≤ s.length then s else ⟨List.replicate (2 - s.length) '0'⟩ ++ s

/-- `formatTimestamp` (src/WeatherDataGraphs.jsx:30-38): truthiness guard
returning the sentinel, then zero-padded `MM-DD HH:MM` built from the local
date parts of `new Date(isoString)`. -/
def formatTimestamp (env : DateEnv) (isoString : JSVal) : String :=
  if truthy isoString = false then "Invalid Timestamp"
  else
    let p := env isoString
    jsPadStart2 (jsNumToString (jsAddOne p.month)) ++ "-" ++
      jsPadStart2 (jsNumToString p.day) ++ " " ++
      jsPadStart2 (jsNumToString p.hours) ++ ":" ++
      jsPadStart2 (jsNumToString p.minutes)

/-- `formatTimestamps` (src/WeatherDataGraphs.jsx:41-44): `[]` unless the
input is an array (`if (!Array.isArray(timestamps)) return []`), else the
element-wise map of `formatTimestamp`. -/
def formatTimestamps (env : DateEnv) (timestamps : JSVal) : List String :=
  match timestamps with
  | .arr xs => xs.map (formatTimestamp env)
  | _ => []

/-! ### `formatData` -/

/-- One entry of the `defaultColors` palette in `formatData`. -/
structure ColorPair where
  borderColor : JSVal
  backgroundColor : JSVal

/-- One element of the chart `datasets` array built by `formatData`.
`tension` is the literal `0.4`, modelled as the rational `2/5`. -/
structure Dataset where
  label : JSVal
  data : List JSVal
  borderColor : JSVal
  backgroundColor : JSVal
  fill : Bool
  tension : ℚ

/-- The chart input `\x7b labels, datasets \x7d` returned by `formatData`. -/
structure ChartData where
  labels : List String
  datasets : List Dataset

/-- Placeholder dataset used as the default of `List.getD` when stating
facts about `datasets[i]`; every such access is guarded by an
`i < length` hypothesis, so it is never the value actually read. -/
def dummyDataset : Dataset :=
  { label := .undefined, data := [], borderColor := .undefined,
    backgroundColor := .undefined, fill := false, tension := 0 }

/-- The fixed default palette of `formatData`
(src/WeatherDataGraphs.jsx:69-86): yellow, blue, red, cyan. -/
def defaultColors : List ColorPair :=
  [⟨.str "rgb(255, 206, 86)", .str "rgba(255, 206, 86, 0.2)"⟩,
   ⟨.str "rgb(54, 162, 235)", .str "rgba(54, 162, 235, 0.2)"⟩,
   ⟨.str "rgb(255, 99, 132)", .str "rgba(255, 99, 132, 0.2)"⟩,
   ⟨.str "rgb(75, 192, 192)", .str "rgba(75, 192, 192, 0.2)"⟩]

/-- The body of `types.map((type, index) => ...)` in `formatData`
(src/WeatherDataGraphs.jsx:89-107), with JavaScript exceptions modelled:
member/index access on `null`/`undefined` is the only thing that can throw.
The color is `colors && colors[index] ? \x7bborderColor: colors[index].borderColor
|| colors[index], backgroundColor: colors[index].backgroundColor ||
` the template `\x7d : defaultColors[index % defaultColors.length]`. -/
def datasetOfE (colors dataArray : JSVal) (index : Nat) (type : JSVal) :
    Except String Dataset := do
  let color : ColorPair ←
    if truthy colors then do
      let ci ← jsIndexE colors index
      if truthy ci then do
        let b ← jsMemberE ci "borderColor"
        let bg ← jsMemberE ci "backgroundColor"
        pure ⟨jsOr b ci, jsOr bg (.str (jsToStr ci ++ "4D"))⟩
      else
        pure (defaultColors.getD (index % defaultColors.length) ⟨.undefined, .undefined⟩)
    else
      pure (defaultColors.getD (index % defaultColors.length) ⟨.undefined, .undefined⟩)
  let di ← jsIndexE dataArray index
  pure { label := type
         data := match di with | .arr xs => xs | _ => []
         borderColor := color.borderColor
         backgroundColor := color.backgroundColor
         fill := false
         tension := 2/5 }

/-- Total counterpart of `datasetOfE` (they agree whenever the receiver of
each access is non-`null`/`undefined`; see `datasetOfE_ok`). -/
def datasetOf (colors dataArray : JSVal) (index : Nat) (type : JSVal) :
    Dataset :=
  let ci := jsIndexD colors index
  let color : ColorPair :=
    if truthy colors ∧ truthy ci then
      ⟨jsOr (jsMemberD ci "borderColor") ci,
       jsOr (jsMemberD ci "backgroundColor") (.str (jsToStr ci ++ "4D"))⟩
    else
      defaultColors.getD (index % defaultColors.length) ⟨.undefined, .undefined⟩
  { label := type
    data := match jsIndexD dataArray index with | .arr xs => xs | _ => []
    borderColor := color.borderColor
    backgroundColor := color.backgroundColor
    fill := false
    tension := 2/5 }

/-- `types.map((type, index) => ...)`, carrying the running index, with
exceptions modelled. -/
def buildDatasetsE (colors dataArray : JSVal) :
    Nat → List JSVal → Except String (List Dataset)
  | _, [] => .ok []
  | i, t :: ts => do
      let d ← datasetOfE colors dataArray i t
      let rest ← buildDatasetsE colors dataArray (i + 1) ts
      pure (d :: rest)

/-- Total counterpart of `buildDatasetsE`. -/
def buildDatasets (colors dataArray : JSVal) :
    Nat → List JSVal → List Dataset
  | _, [] => []
  | i, t :: ts =>
      datasetOf colors dataArray i t :: buildDatasets colors dataArray (i + 1) ts

/-- `formatData` (src/WeatherDataGraphs.jsx:47-113) with JavaScript
exceptions modelled.  The guard `!Array.isArray(types) ||
!Array.isArray(timestamps) || !Array.isArray(dataArray)` short-circuits to
the empty chart input (the accompanying `console.error` diagnostic is a
log-only side effect and is not modelled). -/
def formatDataE (env : DateEnv) (types timestamps dataArray colors : JSVal) :
    Except String ChartData :=
  if isArray types = false ∨ isArray timestamps = false ∨
      isArray dataArray = false then
    .ok { labels := [], datasets := [] }
  else do
    let ds ← buildDatasetsE colors dataArray 0
      (match types with | .arr ts => ts | _ => [])
    pure { labels := formatTimestamps env timestamps, datasets := ds }

/-- Total counterpart of `formatDataE`; `formatDataE_ok` proves they agree on
every input, i.e. `formatData` never throws. -/
def formatData (env : DateEnv) (types timestamps dataArray colors : JSVal) :
    ChartData :=
  if isArray types = false ∨ isArray timestamps = false ∨
      isArray dataArray = false then
    { labels := [], datasets := [] }
  else
    { labels := formatTimestamps env timestamps
      datasets := buildDatasets colors dataArray 0
        (match types with | .arr ts => ts | _ => []) }

theorem except_ok_bind {α β : Type} (a : α) (f : α → Except String β) :
    (Except.ok a >>= f : Except String β) = f a := rfl

theorem datasetOfE_ok (colors dataArray : JSVal) (index : Nat) (type : JSVal)
    (hda : isNullOrUndefined dataArray = false) :
    datasetOfE colors dataArray index type =
      .ok (datasetOf colors dataArray index type) := by
  have hdi : jsIndexE dataArray index = .ok (jsIndexD dataArray index) := by
    cases dataArray <;>
      simp_all [isNullOrUndefined, jsIndexE, jsIndexD, Except.toOption]
  by_cases hc : truthy colors = true
  · have hci : jsIndexE colors index = .ok (jsIndexD colors index) :=
      jsIndexE_ok colors index hc
    by_cases hcit : truthy (jsIndexD colors index) = true
    · have hb : jsMemberE (jsIndexD colors index) "borderColor" =
          .ok (jsMemberD (jsIndexD colors index) "borderColor") := by
        cases h : jsIndexD colors index <;>
          simp_all [truthy, jsMemberE, jsMemberD, Except.toOption]
      have hbg : jsMemberE (jsIndexD colors index) "backgroundColor" =
          .ok (jsMemberD (jsIndexD colors index) "backgroundColor") := by
        cases h : jsIndexD colors index <;>
          simp_all [truthy, jsMemberE, jsMemberD, Except.toOption]
      simp [datasetOfE, datasetOf, hc, hci, hcit, hb, hbg, hdi,
        except_ok_bind]
    · simp [datasetOfE, datasetOf, hc, hci, hcit, hdi, except_ok_bind]
  · simp [datasetOfE, datasetOf, hc, hdi, except_ok_bind]

theorem buildDatasetsE_ok (colors dataArray : JSVal)
    (hda : isNullOrUndefined dataArray = false) :
    ∀ (ts : List JSVal) (i : Nat),
      buildDatasetsE colors dataArray i ts =
        .ok (buildDatasets colors dataArray i ts) := by
  intro ts
  induction ts with
  | nil => intro i; simp [buildDatasetsE, buildDatasets]
  | cons t rest ih =>
      intro i
      simp [buildDatasetsE, buildDatasets,
        datasetOfE_ok colors dataArray i t hda, ih (i + 1), except_ok_bind]

/-- `formatData` never throws: the fallible embedding agrees with the total
one on every input. -/
theorem formatDataE_ok (env : DateEnv)
    (types timestamps dataArray colors : JSVal) :
    formatDataE env types timestamps dataArray colors =
      .ok (formatData env types timestamps dataArray colors) := by
  by_cases hg : isArray types = false ∨ isArray timestamps = false ∨
      isArray dataArray = false
  · simp [formatDataE, formatData, hg]
  · have hda : isNullOrUndefined dataArray = false := by
      rcases not_or.mp hg with ⟨h1, h23⟩
      rcases not_or.mp h23 with ⟨h2, h3⟩
      cases dataArray <;> simp_all [isArray, isNullOrUndefined]
    simp [formatDataE, formatData, hg,
      buildDatasetsE_ok colors dataArray hda, except_ok_bind]

/-! ### The component's interaction state -/

/-- The `useState` hooks of `WeatherDataGraphs`
(src/WeatherDataGraphs.jsx:150-161).  Dates are modelled as millisecond
epoch integers (`Date.getTime`); `dataSize` is the last observed label
count. -/
structure CState where
  showStartDatePicker : Bool
  showEndDatePicker : Bool
  loading : Bool
  selectedFilter : String
  selectedFilterButton : String
  dataSize : Nat
  selectedStartDate : Int
  selectedEndDate : Int
deriving Repr, DecidableEq

/-- The initial state of a freshly mounted component: `loading=false`,
`selectedFilter="Range"`, `selectedFilterButton="oneD"`, `dataSize=0`,
dates from `props.startDate || today` / `props.endDate || today`. -/
def initState (today : Int) (startDate endDate : Option Int) : CState :=
  { showStartDatePicker := false
    showEndDatePicker := false
    loading := false
    selectedFilter := "Range"
    selectedFilterButton := "oneD"
    dataSize := 0
    selectedStartDate := startDate.getD today
    selectedEndDate := endDate.getD today }

/-- One entry of the `filterButtons` array (src/WeatherDataGraphs.jsx:225-279):
its `key`, the localization key of its `label`, the literal filter string it
passes to `props.filterChange`, and the width of its date range in days. -/
structure FilterButton where
  key : String
  labelKey : String
  filter : String
  days : Nat
deriving Repr, DecidableEq

/-- The three quick-filter buttons, in render order. -/
def filterButtons : List FilterButton :=
  [⟨"oneD", "filterTooltips.oneD", "Hourly", 1⟩,
   ⟨"oneW", "filterTooltips.oneW", "Daily", 7⟩,
   ⟨"oneM", "filterTooltips.oneM", "Monthly", 30⟩]

/-- The `action` click handler of a quick-filter button
(src/WeatherDataGraphs.jsx:230-241, 247-258, 264-277): an early return when
the button is already selected, otherwise select it, set the range to
`(now − days·24·60·60·1000, now)`, set the filter string, call
`props.filterChange(filter)` and set `loading`.  `now` is `new Date()` at
click time; the second component of the result lists the arguments of the
`props.filterChange` calls the handler makes, in order. -/
def clickFilter (b : FilterButton) (now : Int) (s : CState) :
    CState × List String :=
  if s.selectedFilterButton = b.key then (s, [])
  else
    ({ s with
        selectedFilterButton := b.key
        selectedStartDate := now - (b.days : Int) * (24 * 60 * 60 * 1000)
        selectedEndDate := now
        selectedFilter := b.filter
        loading := true },
     [b.filter])

/-- The chart's `animation.onComplete` callback
(src/WeatherDataGraphs.jsx:180-186): if the rendered label count differs
from `dataSize`, store it and clear `loading`; otherwise do nothing. -/
def onComplete (labelCount : Nat) (s : CState) : CState :=
  if labelCount ≠ s.dataSize
  then { s with dataSize := labelCount, loading := false }
  else s

/-! ### The render -/

/-- What the JSX renders for one quick-filter button
(src/WeatherDataGraphs.jsx:292-303): the `activeFilter` class and the
`disabled` attribute are both `selectedFilterButton === key`. -/
structure ButtonView where
  key : String
  labelKey : String
  active : Bool
  disabled : Bool
deriving Repr, DecidableEq

/-- The observable output of one render of `WeatherDataGraphs`
(src/WeatherDataGraphs.jsx:286-329): the three buttons, whether the loading
overlay is shown and the chart wrapper blurred (`loading || props.leftLoad`
in both places), and the chart input passed to `<Line>`. -/
structure View where
  buttons : List ButtonView
  overlayVisible : Bool
  chartBlurred : Bool
  chart : ChartData

/-- The render of `WeatherDataGraphs` as a pure function of its props
(`types`, `time`, `data`, `colors`, `leftLoad`) and its state. -/
def render (env : DateEnv) (types time dataV colors leftLoad : JSVal)
    (s : CState) : View :=
  { buttons := filterButtons.map fun b =>
      ⟨b.key, b.labelKey,
       s.selectedFilterButton == b.key,
       s.selectedFilterButton == b.key⟩
    overlayVisible := s.loading || truthy leftLoad
    chartBlurred := s.loading || truthy leftLoad
    chart := formatData env types time dataV colors }

/-! ### Zero-padded rendering helpers -/

/-- Specification-side zero-padded two-digit decimal rendering of `n`. -/
def twoDigit (n : Int) : String :=
  if n < 10 then "0" ++ toString n else toString n

theorem jsPadStart2_toString (n : Int) (h0 : 0 ≤ n) (h60 : n ≤ 60) :
    jsPadStart2 (jsNumToString (some n)) = twoDigit n ∧
      (twoDigit n).length = 2 := by
  interval_cases n <;> exact ⟨rfl, rfl⟩

/-! ### Helper lemmas about the dataset builder -/

theorem jsIndexD_arr (xs : List JSVal) (i : Nat) :
    jsIndexD (.arr xs) i = xs.getD i .undefined := by
  simp [jsIndexD, jsIndexE, Except.toOption]

theorem buildDatasets_length (colors dataArray : JSVal) :
    ∀ (ts : List JSVal) (i : Nat),
      (buildDatasets colors dataArray i ts).length = ts.length := by
  intro ts
  induction ts with
  | nil => intro i; simp [buildDatasets]
  | cons t rest ih => intro i; simp [buildDatasets, ih (i + 1)]

theorem buildDatasets_getD (colors dataArray : JSVal) :
    ∀ (ts : List JSVal) (i j : Nat), j < ts.length →
      (buildDatasets colors dataArray i ts).getD j dummyDataset =
        datasetOf colors dataArray (i + j) (ts.getD j .undefined) := by
  intro ts
  induction ts with
  | nil => intro i j hj; simp at hj
  | cons t rest ih =>
      intro i j hj
      cases j with
      | zero => simp [buildDatasets]
      | succ j' =>
          have hj' : j' < rest.length := by simpa using hj
          simp only [buildDatasets, List.getD_cons_succ]
          rw [ih (i + 1) j' hj']
          congr 1
          omega

/-! ## Claim theorems -/

/-- C10: `formatTimestamp` returns the sentinel `"Invalid Timestamp"` for
every falsy input — including the empty string `""` and the number `0`, not
only `null`/`undefined` — because the guard `if (!isoString)` tests
truthiness of the argument rather than presence. -/
theorem formatTimestamp_falsy_sentinel (env : DateEnv) (v : JSVal)
    (h : truthy v = false) :
    formatTimestamp env v = "Invalid Timestamp" := by
  simp [formatTimestamp, h]

theorem formatTimestamp_falsy_sentinel_witness :
    truthy (JSVal.str "") = false ∧ truthy (JSVal.num 0) = false ∧
    formatTimestamp nanDateEnv (.str "") = "Invalid Timestamp" ∧
    formatTimestamp nanDateEnv (.num 0) = "Invalid Timestamp" :=
  ⟨by decide, by decide,
   formatTimestamp_falsy_sentinel nanDateEnv (.str "") (by decide),
   formatTimestamp_falsy_sentinel nanDateEnv (.num 0) (by decide)⟩

/-- C9 counterexample: the claim says an unparsable date string yields the
sentinel, but the guard in `formatTimestamp` only tests truthiness.  For a
truthy string that does not parse, `new Date(s)` is an Invalid Date whose
four getters all return NaN (modelled by `nanDateEnv`), `String(NaN)` is
`"NaN"`, and `"NaN".padStart(2, "0")` is `"NaN"`, so the result is
`"NaN-NaN NaN:NaN"`, not `"Invalid Timestamp"`. -/
theorem formatTimestamp_unparsable_not_sentinel :
    formatTimestamp nanDateEnv (.str "not-a-date") = "NaN-NaN NaN:NaN" ∧
      formatTimestamp nanDateEnv (.str "not-a-date") ≠ "Invalid Timestamp" :=
  ⟨by decide, by decide⟩

/-- C9 (amended): `formatTimestamp` returns the sentinel
`"Invalid Timestamp"` exactly for falsy inputs (`null`, `undefined`, `""`,
`0`, `NaN`, `false`); for a truthy input on which the Date getters all
return NaN (an unparsable date string), it instead returns
`"NaN-NaN NaN:NaN"`. -/
theorem formatTimestamp_sentinel_exactly_falsy (env : DateEnv) (v : JSVal) :
    (truthy v = false → formatTimestamp env v = "Invalid Timestamp") ∧
    (truthy v = true → env v = ⟨none, none, none, none⟩ →
      formatTimestamp env v = "NaN-NaN NaN:NaN") := by
  constructor
  · intro h; simp [formatTimestamp, h]
  · intro h he
    simp only [formatTimestamp, h, he]
    decide

theorem formatTimestamp_sentinel_exactly_falsy_witness :
    truthy JSVal.null = false ∧
    formatTimestamp nanDateEnv JSVal.null = "Invalid Timestamp" ∧
    truthy (JSVal.str "garbage") = true ∧
    formatTimestamp nanDateEnv (.str "garbage") = "NaN-NaN NaN:NaN" :=
  ⟨by decide,
   (formatTimestamp_sentinel_exactly_falsy nanDateEnv JSVal.null).1 (by decide),
   by decide,
   (formatTimestamp_sentinel_exactly_falsy nanDateEnv (.str "garbage")).2
     (by decide) rfl⟩

/-- C8: `formatTimestamps` returns `[]` for every non-array input (and in
particular on the empty array); for every array input it returns the
element-wise image under `formatTimestamp`, preserving length and input
order; and on an input whose Date parts are in the valid local-time ranges
(a valid timestamp) the formatted string is the deterministic zero-padded
`MM-DD HH:MM` rendering of those parts (11 characters). -/
theorem formatTimestamps_spec :
    (∀ (env : DateEnv) (v : JSVal), isArray v = false →
        formatTimestamps env v = []) ∧
    (∀ (env : DateEnv) (xs : List JSVal),
        formatTimestamps env (.arr xs) = xs.map (formatTimestamp env) ∧
        (formatTimestamps env (.arr xs)).length = xs.length) ∧
    (∀ (env : DateEnv) (v : JSVal) (m d h mi : Int),
        truthy v = true →
        env v = ⟨some m, some d, some h, some mi⟩ →
        0 ≤ m → m ≤ 11 → 1 ≤ d → d ≤ 31 → 0 ≤ h → h ≤ 23 →
        0 ≤ mi → mi ≤ 59 →
        formatTimestamp env v =
          twoDigit (m + 1) ++ "-" ++ twoDigit d ++ " " ++
            twoDigit h ++ ":" ++ twoDigit mi ∧
        (formatTimestamp env v).length = 11) := by
  refine ⟨?_, ?_, ?_⟩
  · intro env v hv
    cases v <;> simp_all [formatTimestamps, isArray]
  · intro env xs
    simp [formatTimestamps]
  · intro env v m d h mi hv he hm0 hm1 hd0 hd1 hh0 hh1 hmi0 hmi1
    have em := jsPadStart2_toString (m + 1) (by omega) (by omega)
    have ed := jsPadStart2_toString d (by omega) (by omega)
    have eh := jsPadStart2_toString h (by omega) (by omega)
    have emi := jsPadStart2_toString mi (by omega) (by omega)
    have heq : formatTimestamp env v =
        twoDigit (m + 1) ++ "-" ++ twoDigit d ++ " " ++
          twoDigit h ++ ":" ++ twoDigit mi := by
      simp [formatTimestamp, hv, he, jsAddOne, em.1, ed.1, eh.1, emi.1]
    refine ⟨heq, ?_⟩
    rw [heq]
    simp only [String.length_append, em.2, ed.2, eh.2, emi.2]
    decide

theorem formatTimestamps_spec_witness :
    isArray (JSVal.str "x") = false ∧
    formatTimestamps envJan1 (.str "x") = [] ∧
    formatTimestamps envJan1 (.arr []) = [] ∧
    formatTimestamps envJan1 (.arr [.str "2024-01-01T00:00:00Z"]) =
      ["01-01 00:00"] ∧
    truthy (JSVal.str "2024-01-01T00:00:00Z") = true ∧
    formatTimestamp envJan1 (.str "2024-01-01T00:00:00Z") =
      twoDigit (0 + 1) ++ "-" ++ twoDigit 1 ++ " " ++
        twoDigit 0 ++ ":" ++ twoDigit 0 := by
  refine ⟨by decide, ?_, ?_, by decide, by decide, ?_⟩
  · exact formatTimestamps_spec.1 envJan1 (.str "x") (by decide)
  · exact (formatTimestamps_spec.2.1 envJan1 []).1
  · exact (formatTimestamps_spec.2.2 envJan1 (.str "2024-01-01T00:00:00Z")
      0 1 0 0 (by decide) rfl (by omega) (by omega) (by omega) (by omega)
      (by omega) (by omega) (by omega) (by omega)).1

theorem datasetOf_data (colors dataArray : JSVal) (i : Nat) (t : JSVal) :
    (datasetOf colors dataArray i t).data =
      (match jsIndexD dataArray i with
       | JSVal.arr xs => xs
       | _ => []) := rfl

theorem formatData_arr (env : DateEnv) (tys tms ds : List JSVal)
    (colors : JSVal) :
    formatData env (.arr tys) (.arr tms) (.arr ds) colors =
      { labels := formatTimestamps env (.arr tms)
        datasets := buildDatasets colors (.arr ds) 0 tys } := by
  simp [formatData, isArray]

/-- C1: whenever any of `types`, `timestamps`, `dataArray` is not an array,
`formatData` returns the empty chart input; and on every input whatsoever
(the component's member/index accesses being the only possible exception
sources) it returns normally rather than throwing. -/
theorem formatData_malformed_safe :
    (∀ (env : DateEnv) (types timestamps dataArray colors : JSVal),
        (isArray types = false ∨ isArray timestamps = false ∨
          isArray dataArray = false) →
        formatDataE env types timestamps dataArray colors =
          .ok { labels := [], datasets := [] }) ∧
    (∀ (env : DateEnv) (types timestamps dataArray colors : JSVal),
        ∃ r, formatDataE env types timestamps dataArray colors = .ok r) := by
  constructor
  · intro env t ts da c hg
    simp [formatDataE, hg]
  · intro env t ts da c
    exact ⟨_, formatDataE_ok env t ts da c⟩

theorem formatData_malformed_safe_witness :
    isArray JSVal.null = false ∧
    formatDataE envJan1 JSVal.null (.arr []) (.arr []) JSVal.undefined =
      .ok { labels := [], datasets := [] } :=
  ⟨by decide,
   formatData_malformed_safe.1 envJan1 JSVal.null (.arr []) (.arr [])
     JSVal.undefined (Or.inl (by decide))⟩

/-- C6: on array inputs `formatData` produces exactly one dataset per
element of `types`, in order; dataset `i` carries `label = types[i]`,
`data = dataArray[i]` when that is an array and `[]` otherwise,
`fill = false` and `tension = 0.4`; and when no per-index color is provided
(`colors` falsy, or `colors[i]` falsy) its border/background colors are the
default palette entry at index `i % 4`. -/
theorem formatData_datasets_spec (env : DateEnv) (tys tms ds : List JSVal)
    (colors : JSVal) :
    (formatData env (.arr tys) (.arr tms) (.arr ds) colors).datasets.length
        = tys.length ∧
    (∀ i, i < tys.length →
      ((formatData env (.arr tys) (.arr tms) (.arr ds)
          colors).datasets.getD i dummyDataset).label = tys.getD i .undefined ∧
      ((formatData env (.arr tys) (.arr tms) (.arr ds)
          colors).datasets.getD i dummyDataset).data =
        (match ds.getD i JSVal.undefined with
         | JSVal.arr xs => xs
         | _ => []) ∧
      ((formatData env (.arr tys) (.arr tms) (.arr ds)
          colors).datasets.getD i dummyDataset).fill = false ∧
      ((formatData env (.arr tys) (.arr tms) (.arr ds)
          colors).datasets.getD i dummyDataset).tension = 2 / 5) ∧
    (∀ i, i < tys.length →
      (truthy colors = false ∨ truthy (jsIndexD colors i) = false) →
      ((formatData env (.arr tys) (.arr tms) (.arr ds)
          colors).datasets.getD i dummyDataset).borderColor =
        (defaultColors.getD (i % 4) ⟨.undefined, .undefined⟩).borderColor ∧
      ((formatData env (.arr tys) (.arr tms) (.arr ds)
          colors).datasets.getD i dummyDataset).backgroundColor =
        (defaultColors.getD (i % 4) ⟨.undefined, .undefined⟩).backgroundColor) := by
  rw [formatData_arr]
  refine ⟨by simp [buildDatasets_length], ?_, ?_⟩
  · intro i hi
    have hgd := buildDatasets_getD colors (.arr ds) tys 0 i hi
    simp only [Nat.zero_add] at hgd
    simp only [hgd]
    refine ⟨rfl, ?_, rfl, rfl⟩
    simp [datasetOf, jsIndexD_arr]
  · intro i hi hc
    have hgd := buildDatasets_getD colors (.arr ds) tys 0 i hi
    simp only [Nat.zero_add] at hgd
    simp only [hgd]
    have hcond : ¬(truthy colors = true ∧ truthy (jsIndexD colors i) = true) := by
      rcases hc with hc | hc <;> simp [hc]
    have hlen4 : defaultColors.length = 4 := by decide
    constructor <;> simp [datasetOf, hcond, hlen4]

theorem formatData_datasets_spec_witness :
    (formatData envJan1 (.arr [.str "Temp", .str "Humidity"])
        (.arr [.str "2024-01-01T00:00:00Z"])
        (.arr [.arr [.num 10], .arr [.num 50]])
        JSVal.undefined).datasets.length = 2 ∧
    ((formatData envJan1 (.arr [.str "Temp", .str "Humidity"])
        (.arr [.str "2024-01-01T00:00:00Z"])
        (.arr [.arr [.num 10], .arr [.num 50]])
        JSVal.undefined).datasets.getD 0 dummyDataset).borderColor =
      (defaultColors.getD 0 ⟨.undefined, .undefined⟩).borderColor ∧
    ((formatData envJan1 (.arr [.str "Temp", .str "Humidity"])
        (.arr [.str "2024-01-01T00:00:00Z"])
        (.arr [.arr [.num 10], .arr [.num 50]])
        JSVal.undefined).datasets.getD 1 dummyDataset).borderColor =
      (defaultColors.getD 1 ⟨.undefined, .undefined⟩).borderColor ∧
    ((formatData envJan1 (.arr [.str "Temp", .str "Humidity"])
        (.arr [.str "2024-01-01T00:00:00Z"])
        (.arr [.arr [.num 10], .arr [.num 50]])
        JSVal.undefined).datasets.getD 0 dummyDataset).label = .str "Temp" ∧
    (formatData envJan1 (.arr [.str "Temp", .str "Humidity"])
        (.arr [.str "2024-01-01T00:00:00Z"])
        (.arr [.arr [.num 10], .arr [.num 50]])
        JSVal.undefined).labels = ["01-01 00:00"] := by
  have h := formatData_datasets_spec envJan1
    [.str "Temp", .str "Humidity"] [.str "2024-01-01T00:00:00Z"]
    [.arr [.num 10], .arr [.num 50]] JSVal.undefined
  refine ⟨h.1, ?_, ?_, (h.2.1 0 (by decide)).1, by decide⟩
  · exact (h.2.2 0 (by decide) (Or.inl (by decide))).1
  · exact (h.2.2 1 (by decide) (Or.inl (by decide))).1

/-- C7: when `types`, `timestamps`, `dataArray` are arrays but `dataArray`
is shorter than `types`, `formatData` does not throw; every series index
with no corresponding `dataArray` entry yields a dataset with `data = []`,
and every index whose `dataArray` entry is an array keeps exactly that
array — no shifting or misalignment. -/
theorem formatData_short_dataArray (env : DateEnv) (tys tms ds : List JSVal)
    (colors : JSVal) (hlen : ds.length < tys.length) :
    formatDataE env (.arr tys) (.arr tms) (.arr ds) colors =
      .ok (formatData env (.arr tys) (.arr tms) (.arr ds) colors) ∧
    (formatData env (.arr tys) (.arr tms) (.arr ds)
        colors).datasets.length = tys.length ∧
    (∀ i, ds.length ≤ i → i < tys.length →
      ((formatData env (.arr tys) (.arr tms) (.arr ds)
          colors).datasets.getD i dummyDataset).data = []) ∧
    (∀ i xs, i < tys.length → ds.getD i JSVal.undefined = .arr xs →
      ((formatData env (.arr tys) (.arr tms) (.arr ds)
          colors).datasets.getD i dummyDataset).data = xs) := by
  refine ⟨formatDataE_ok env _ _ _ colors, ?_, ?_, ?_⟩
  · rw [formatData_arr]; simp [buildDatasets_length]
  · intro i hlo hhi
    rw [formatData_arr]
    have hgd := buildDatasets_getD colors (.arr ds) tys 0 i hhi
    simp only [Nat.zero_add] at hgd
    simp only [hgd]
    have hout : ds.getD i JSVal.undefined = JSVal.undefined :=
      List.getD_eq_default _ _ hlo
    rw [datasetOf_data, jsIndexD_arr, hout]
  · intro i xs hhi hxs
    rw [formatData_arr]
    have hgd := buildDatasets_getD colors (.arr ds) tys 0 i hhi
    simp only [Nat.zero_add] at hgd
    simp only [hgd]
    rw [datasetOf_data, jsIndexD_arr, hxs]

theorem formatData_short_dataArray_witness :
    [JSVal.arr [.num 10]].length < [JSVal.str "Temp", JSVal.str "Hum"].length ∧
    ((formatData envJan1 (.arr [.str "Temp", .str "Hum"])
        (.arr []) (.arr [.arr [.num 10]])
        JSVal.undefined).datasets.getD 1 dummyDataset).data = [] ∧
    ((formatData envJan1 (.arr [.str "Temp", .str "Hum"])
        (.arr []) (.arr [.arr [.num 10]])
        JSVal.undefined).datasets.getD 0 dummyDataset).data = [.num 10] := by
  have h := formatData_short_dataArray envJan1
    [.str "Temp", .str "Hum"] [] [.arr [.num 10]] JSVal.undefined (by decide)
  exact ⟨by decide, h.2.2.1 1 (by decide) (by decide),
    h.2.2.2 0 [.num 10] (by decide) rfl⟩

/-- C2: clicking a quick-filter button `B` that is not currently active
selects `B`, sets the date range to `(now − Δ, now)` with `Δ = days·24·60·
60·1000` ms, calls `props.filterChange` exactly once with the button's
literal filter string, and sets `loading`; and across the three buttons the
`(key, filter, days)` triples are exactly
`(oneD, "Hourly", 1)`, `(oneW, "Daily", 7)`, `(oneM, "Monthly", 30)`. -/
theorem clickFilter_nonactive (b : FilterButton) (hb : b ∈ filterButtons)
    (now : Int) (s : CState) (h : s.selectedFilterButton ≠ b.key) :
    (clickFilter b now s).2 = [b.filter] ∧
    (clickFilter b now s).1.selectedFilterButton = b.key ∧
    (clickFilter b now s).1.selectedStartDate =
      now - (b.days : Int) * (24 * 60 * 60 * 1000) ∧
    (clickFilter b now s).1.selectedEndDate = now ∧
    (clickFilter b now s).1.selectedFilter = b.filter ∧
    (clickFilter b now s).1.loading = true ∧
    ((b.key = "oneD" ∧ b.filter = "Hourly" ∧ b.days = 1) ∨
     (b.key = "oneW" ∧ b.filter = "Daily" ∧ b.days = 7) ∨
     (b.key = "oneM" ∧ b.filter = "Monthly" ∧ b.days = 30)) := by
  refine ⟨?_, ?_, ?_, ?_, ?_, ?_, ?_⟩ <;>
    first
      | simp [clickFilter, h]
      | (fin_cases hb <;> simp)

theorem clickFilter_nonactive_witness :
    (initState 0 none none).selectedFilterButton ≠ "oneW" ∧
    (clickFilter ⟨"oneW", "filterTooltips.oneW", "Daily", 7⟩ 1000000
        (initState 0 none none)).2 = ["Daily"] ∧
    (clickFilter ⟨"oneW", "filterTooltips.oneW", "Daily", 7⟩ 1000000
        (initState 0 none none)).1.selectedStartDate =
      1000000 - 7 * (24 * 60 * 60 * 1000) ∧
    (clickFilter ⟨"oneW", "filterTooltips.oneW", "Daily", 7⟩ 1000000
        (initState 0 none none)).1.loading = true := by
  have h := clickFilter_nonactive ⟨"oneW", "filterTooltips.oneW", "Daily", 7⟩
    (by decide) 1000000 (initState 0 none none) (by decide)
  exact ⟨by decide, h.1, h.2.2.1, h.2.2.2.2.2.1⟩

/-- C3: clicking the currently active quick-filter button is a no-op — the
handler returns before any state update or `props.filterChange` call — and
the active button is rendered with `disabled` set. -/
theorem clickFilter_active_noop (b : FilterButton) (hb : b ∈ filterButtons)
    (now : Int) (s : CState) (h : s.selectedFilterButton = b.key)
    (env : DateEnv) (types time dataV colors leftLoad : JSVal) :
    clickFilter b now s = (s, []) ∧
    ButtonView.mk b.key b.labelKey true true ∈
      (render env types time dataV colors leftLoad s).buttons := by
  constructor
  · simp [clickFilter, h]
  · refine List.mem_map.mpr ⟨b, hb, ?_⟩
    simp [h]

theorem clickFilter_active_noop_witness :
    (initState 0 none none).selectedFilterButton = "oneD" ∧
    clickFilter ⟨"oneD", "filterTooltips.oneD", "Hourly", 1⟩ 42
        (initState 0 none none) = (initState 0 none none, []) ∧
    ButtonView.mk "oneD" "filterTooltips.oneD" true true ∈
      (render envJan1 JSVal.undefined JSVal.undefined JSVal.undefined JSVal.undefined
        JSVal.undefined (initState 0 none none)).buttons := by
  have h := clickFilter_active_noop ⟨"oneD", "filterTooltips.oneD", "Hourly", 1⟩
    (by decide) 42 (initState 0 none none) (by decide) envJan1
    JSVal.undefined JSVal.undefined JSVal.undefined JSVal.undefined JSVal.undefined
  exact ⟨by decide, h.1, h.2⟩

/-- C4 counterexample: the claim says the label count is recorded only when
the component is in `loading`, but `onComplete` only compares the count with
`dataSize` and never consults `loading`.  In the initial state (`loading =
false`, `dataSize = 0`) a completion signal with 5 labels records
`dataSize = 5` even though the component is idle. -/
theorem onComplete_records_when_idle :
    (initState 0 none none).loading = false ∧
    (initState 0 none none).dataSize = 0 ∧
    (onComplete 5 (initState 0 none none)).dataSize = 5 ∧
    (onComplete 5 (initState 0 none none)).loading = false := by
  decide

/-- C4 (amended): on a redraw-completion signal, if and only if the rendered
label count differs from the last observed count, the component records the
new count and clears `loading` — regardless of whether it was in `loading`;
when it was in `loading` this is exactly the `loading → idle` transition the
spec describes. -/
theorem onComplete_spec (s : CState) (n : Nat) :
    (n ≠ s.dataSize →
      onComplete n s = { s with dataSize := n, loading := false }) ∧
    (n = s.dataSize → onComplete n s = s) ∧
    (s.loading = true → n ≠ s.dataSize →
      (onComplete n s).loading = false ∧ (onComplete n s).dataSize = n) := by
  refine ⟨?_, ?_, ?_⟩
  · intro h; simp [onComplete, h]
  · intro h; simp [onComplete, h]
  · intro hl h; simp [onComplete, h]

theorem onComplete_spec_witness :
    onComplete 5 (initState 0 none none) =
      { initState 0 none none with dataSize := 5, loading := false } ∧
    onComplete 0 (initState 0 none none) = initState 0 none none :=
  ⟨(onComplete_spec (initState 0 none none) 5).1 (by decide),
   (onComplete_spec (initState 0 none none) 0).2.1 (by decide)⟩

/-- C5: the loading overlay is rendered exactly when the internal `loading`
flag is true or the host's `leftLoad` prop is truthy (the chart blur has the
same condition), and is absent exactly when both are false; the `leftLoad`
prop influences nothing else in the render (buttons and chart data are
unchanged), and no state-transition function takes it as an input. -/
theorem overlay_visibility (env : DateEnv)
    (types time dataV colors leftLoad : JSVal) (s : CState) :
    (render env types time dataV colors leftLoad s).overlayVisible =
      (s.loading || truthy leftLoad) ∧
    ((render env types time dataV colors leftLoad s).overlayVisible = false ↔
      s.loading = false ∧ truthy leftLoad = false) ∧
    (render env types time dataV colors leftLoad s).chartBlurred =
      (render env types time dataV colors leftLoad s).overlayVisible ∧
    (∀ leftLoad2 : JSVal,
      (render env types time dataV colors leftLoad2 s).buttons =
        (render env types time dataV colors leftLoad s).buttons ∧
      (render env types time dataV colors leftLoad2 s).chart =
        (render env types time dataV colors leftLoad s).chart) := by
  refine ⟨rfl, ?_, rfl, fun l2 => ⟨rfl, rfl⟩⟩
  simp [render, Bool.or_eq_false_iff]

end WeatherGraphs
